import Mathlib

/-!
Verification development for the issue-tracking backend.

The definitions below are a shallow embedding of the Python source:
  - app/models/user.py          (User with computed role / view_mode)
  - app/auth/permissions.py     (can_create_issue, can_update_issue,
                                 can_delete_issue, can_view_issue)
  - app/utils/story_validation.py (validate_hierarchy, validate_status_transition)
  - app/utils/story_repo.py     (get_next_story_code)
  - app/endpoints/v1/stories_api.py (delete_user_story endpoint)
  - app/enums.py                (IssueType and its valid_parents table)

The database session is embedded as a snapshot value (lists of rows); SQLAlchemy
queries become list scans.  Python truthiness on optional integer ids is modelled
by optTruthy (None and 0 are falsy).  ORM relationship attributes (story.project,
team lookup by id) become explicit lookups in the snapshot.  The UserStory model
file itself is not present in the source tree; its columns are reconstructed from
their uses in the files above and from the data-model section of the spec.
-/

/-- Row of the project table (app/models/project.py).  The field pfx models the
project_prefix column; the empty string models a blank value, which Python
treats as falsy. -/
structure Project where
  id : Nat
  name : String
  pfx : String
  ownerId : Option Nat
  isActive : Bool
deriving DecidableEq

/-- Row of the teams table (app/models/team.py) together with its member
association rows: memberIds lists the user ids in team_members for this team. -/
structure Team where
  id : Nat
  projectId : Nat
  leadId : Option Nat
  memberIds : List Nat
deriving DecidableEq

/-- Row of the user_stories table.  The model file is absent from the source
tree; the columns are the ones the embedded functions read: project_id, team_id,
assignee_id, parent_issue_id, issue_type, status, story_pointer. -/
structure UserStory where
  id : Nat
  projectId : Nat
  teamId : Option Nat
  assigneeId : Option Nat
  parentIssueId : Option Nat
  issueType : String
  status : Option String
  storyPointer : Option String
deriving DecidableEq

/-- Row of the users table (app/models/user.py): only the stored columns.  The
role and view_mode the application sees are the computed properties below. -/
structure User where
  id : Nat
  email : String
  storedRole : Option String
  storedViewMode : Option String
deriving DecidableEq

/-- Snapshot of the database visible to one request. -/
structure DB where
  projects : List Project
  teams : List Team
  stories : List UserStory
deriving DecidableEq

/-- Python truthiness of an optional integer id: None and 0 are falsy. -/
def optTruthy : Option Nat → Bool
  | none => false
  | some n => n != 0

/-- Python str.lower(), on the ASCII range the source uses. -/
def strLower (s : String) : String :=
  ⟨s.data.map Char.toLower⟩

/-- Python str.upper(), on the ASCII range the source uses. -/
def strUpper (s : String) : String :=
  ⟨s.data.map Char.toUpper⟩

/-- Python slicing s[:n]. -/
def strTake (s : String) (n : Nat) : String :=
  ⟨s.data.take n⟩

/-- Python slicing s[n:]. -/
def strDrop (s : String) (n : Nat) : String :=
  ⟨s.data.drop n⟩

/-- SQL LIKE with the pattern pre%, i.e. a starts-with test. -/
def strStartsWith (s pre : String) : Bool :=
  pre.data.isPrefixOf s.data

/-- Python s.split(sep)[-1] for the dash separator: the characters after the
last dash, or the whole string when no dash occurs. -/
def lastDashSegment (s : String) : String :=
  ⟨s.data.foldl (fun acc c => if c == '-' then [] else acc ++ [c]) []⟩

/-- Python whitespace test used by str.strip and int(). -/
def pyIsSpace (c : Char) : Bool :=
  c == ' ' || c == '\t' || c == '\n' || c == '\r' || c == '\x0b' || c == '\x0c'

/-- Python str.strip() on a character list. -/
def trimChars (cs : List Char) : List Char :=
  ((cs.dropWhile pyIsSpace).reverse.dropWhile pyIsSpace).reverse

/-- db.query(Project).filter(Project.id == pid).first() -/
def findProject (db : DB) (pid : Nat) : Option Project :=
  db.projects.find? (fun p => p.id == pid)

/-- db.query(Team).filter(Team.id == tid).first() -/
def findTeam (db : DB) (tid : Nat) : Option Team :=
  db.teams.find? (fun t => t.id == tid)

/-- db.query(UserStory).filter(UserStory.id == sid).first() -/
def findStory (db : DB) (sid : Nat) : Option UserStory :=
  db.stories.find? (fun s => s.id == sid)

/-- story.children: the stories whose parent_issue_id is this story. -/
def childrenOf (db : DB) (s : UserStory) : List UserStory :=
  db.stories.filter (fun c => c.parentIssueId == some s.id)

/-- Fixed reserved identity (app/models/user.py). -/
def masterEmail : String := "admin@jira.local"

/-- user.is_master_admin property. -/
def User.isMasterAdmin (u : User) : Bool :=
  u.email == masterEmail

/-- Computed role property: the reserved identity always reads MASTER_ADMIN;
otherwise the stored column with DEVELOPER as the falsy default. -/
def User.role (u : User) : String :=
  if u.email == masterEmail then "MASTER_ADMIN"
  else match u.storedRole with
    | some r => if r == "" then "DEVELOPER" else r
    | none => "DEVELOPER"

/-- Computed view_mode property: the reserved identity always reads ADMIN;
otherwise the stored column with DEVELOPER as the falsy default. -/
def User.viewMode (u : User) : String :=
  if u.email == masterEmail then "ADMIN"
  else match u.storedViewMode with
    | some v => if v == "" then "DEVELOPER" else v
    | none => "DEVELOPER"

/-- role setter: writes the stored column unconditionally. -/
def User.setRole (u : User) (r : String) : User :=
  { u with storedRole := some r }

/-- view_mode setter: a write against the reserved identity is silently
dropped; otherwise the stored column is written. -/
def User.setViewMode (u : User) (v : String) : User :=
  if u.email == masterEmail then u else { u with storedViewMode := some v }

/-- user.teams: ids of the teams whose member list contains the user. -/
def userTeamIds (db : DB) (u : User) : List Nat :=
  (db.teams.filter (fun t => t.memberIds.contains u.id)).map (fun t => t.id)

/-- can_create_issue (app/auth/permissions.py, lines 40 to 86).  The teamId
argument is accepted but never consulted, exactly as in the source. -/
def can_create_issue (db : DB) (u : User) (projectId : Nat) (_teamId : Option Nat) : Bool :=
  match findProject db projectId with
  | none => false
  | some project =>
    if !project.isActive then false
    else if u.isMasterAdmin then true
    else
      let isOwner := project.ownerId == some u.id
      if u.viewMode == "ADMIN" then isOwner
      else if isOwner then false
      else
        db.teams.any (fun t =>
          t.projectId == projectId &&
            (t.leadId == some u.id || (userTeamIds db u).contains t.id))

/-- can_update_issue (app/auth/permissions.py, lines 88 to 131).  The project
row of the story is passed explicitly, standing for story.project. -/
def can_update_issue (db : DB) (u : User) (s : UserStory) (p : Project) : Bool :=
  if !p.isActive then false
  else if u.isMasterAdmin then true
  else
    let isOwner := p.ownerId == some u.id
    if u.viewMode == "ADMIN" then isOwner
    else if isOwner then false
    else
      let teamOk :=
        if optTruthy s.teamId then
          match findTeam db (s.teamId.getD 0) with
          | some team => team.leadId == some u.id && team.projectId == s.projectId
          | none => false
        else false
      if teamOk then true
      else s.assigneeId == some u.id

/-- can_delete_issue (app/auth/permissions.py, lines 133 to 165). -/
def can_delete_issue (db : DB) (u : User) (s : UserStory) (p : Project) : Bool :=
  if !p.isActive then false
  else if u.isMasterAdmin then true
  else
    let isOwner := p.ownerId == some u.id
    if u.viewMode == "ADMIN" && isOwner then true
    else
      if optTruthy s.teamId then
        match findTeam db (s.teamId.getD 0) with
        | some team => team.leadId == some u.id && team.projectId == s.projectId
        | none => false
      else false

/-- can_view_issue (app/auth/permissions.py, lines 167 to 222). -/
def can_view_issue (db : DB) (u : User) (s : UserStory) (p : Project) : Bool :=
  if u.isMasterAdmin then true
  else
    let isOwner := p.ownerId == some u.id
    if u.viewMode == "ADMIN" then isOwner
    else if isOwner then false
    else if db.teams.any (fun t => t.projectId == s.projectId && t.leadId == some u.id) then true
    else
      let memberOk :=
        if optTruthy s.teamId then
          match findTeam db (s.teamId.getD 0) with
          | some team => team.memberIds.contains u.id
          | none => false
        else false
      if memberOk then true
      else if s.assigneeId == some u.id then true
      else db.stories.any (fun st => st.projectId == s.projectId && st.assigneeId == some u.id)

/-- Issue types (app/enums.py, IssueType). -/
inductive IssueType
  | epic
  | story
  | task
  | bug
  | subtask
deriving DecidableEq

/-- String value of an issue type, as stored in the issue_type column. -/
def IssueType.value : IssueType → String
  | .epic => "Epic"
  | .story => "Story"
  | .task => "Task"
  | .bug => "Bug"
  | .subtask => "Subtask"

/-- IssueType(s) constructor call: some type on a known value, none where the
Python constructor raises ValueError. -/
def IssueType.ofString? (s : String) : Option IssueType :=
  if s == "Epic" then some .epic
  else if s == "Story" then some .story
  else if s == "Task" then some .task
  else if s == "Bug" then some .bug
  else if s == "Subtask" then some .subtask
  else none

/-- valid_parents table (app/enums.py, lines 10 to 22). -/
def IssueType.valid_parents : IssueType → List IssueType
  | .epic => []
  | .story => [.epic]
  | .task => [.story]
  | .subtask => [.task]
  | .bug => [.story, .task]

/-- Failure kinds of the hierarchy validator.  The source raises HTTP 400 in
both cases; circularDependency is the raise_circular_dependency branch and
invalidHierarchy carries the message of the other raise_bad_request branches. -/
inductive VErr
  | invalidHierarchy (msg : String)
  | circularDependency
deriving DecidableEq

/-- Decidable equality of validator results, used to evaluate concrete runs. -/
instance exceptDecEq {e a : Type} [DecidableEq e] [DecidableEq a] :
    DecidableEq (Except e a) := fun x y =>
  match x, y with
  | .ok v, .ok w =>
    if h : v = w then isTrue (by rw [h]) else isFalse (by intro hc; cases hc; exact h rfl)
  | .error v, .error w =>
    if h : v = w then isTrue (by rw [h]) else isFalse (by intro hc; cases hc; exact h rfl)
  | .ok _, .error _ => isFalse (by intro hc; cases hc)
  | .error _, .ok _ => isFalse (by intro hc; cases hc)

/-- Ancestor walk of validate_hierarchy (app/utils/story_validation.py, lines
26 to 34): starting from the proposed parent row, checks whether any parent id
on the chain equals cur, following at most fuel links (the source fixes fuel at
50 through its depth counter).  A missing parent row or a falsy parent id ends
the walk with no cycle found. -/
def cycleWalkAux (db : DB) (cur : Nat) : Nat → UserStory → Bool
  | 0, _ => false
  | fuel + 1, anc =>
    match anc.parentIssueId with
    | some pid =>
      if pid != 0 then
        if pid == cur then true
        else
          match findStory db pid with
          | some next => cycleWalkAux db cur fuel next
          | none => false
      else false
    | none => false

/-- Parent ids visited by the bounded ancestor walk, in visiting order.  This
is the chain the walk compares cur against. -/
def ancestorIds (db : DB) : Nat → UserStory → List Nat
  | 0, _ => []
  | fuel + 1, s =>
    match s.parentIssueId with
    | some pid =>
      if pid != 0 then
        pid ::
          (match findStory db pid with
           | some next => ancestorIds db fuel next
           | none => [])
      else []
    | none => []

/-- Type-compatibility tail of validate_hierarchy (app/utils/story_validation.py,
lines 36 to 54), run once a parent row has been resolved and the cycle section
has passed. -/
def typeCheck (curType : IssueType) (ps : UserStory) : Except VErr Unit :=
  match IssueType.ofString? ps.issueType with
  | none => .error (.invalidHierarchy ("Parent issue has invalid type: " ++ ps.issueType))
  | some ptype =>
    if curType == .epic then
      .error (.invalidHierarchy "Epics cannot have a parent issue.")
    else if curType == .story && ptype != .epic then
      .error (.invalidHierarchy ("Story must be a child of an Epic, not " ++ ptype.value ++ "."))
    else if curType == .task && ptype != .story then
      .error (.invalidHierarchy ("Task must be a child of a Story, not " ++ ptype.value ++ "."))
    else if curType == .subtask && ptype != .task then
      .error (.invalidHierarchy ("Subtask must be a child of a Task, not " ++ ptype.value ++ "."))
    else if curType == .bug && !(ptype == .story || ptype == .task) then
      .error (.invalidHierarchy ("Bug must be a child of a Story or Task, not " ++ ptype.value ++ "."))
    else .ok ()

/-- validate_hierarchy (app/utils/story_validation.py, lines 7 to 54; the copy
in app/db_utils/story_utils.py lines 18 to 57 has the same logic with string
comparisons in place of enum values). -/
def validate_hierarchy (db : DB) (parentId : Option Nat) (issueType : String)
    (currentIssueId : Option Nat) : Except VErr Unit :=
  match IssueType.ofString? issueType with
  | none => .error (.invalidHierarchy ("Invalid issue type: " ++ issueType))
  | some curType =>
    if !optTruthy parentId then
      if curType == .subtask then
        .error (.invalidHierarchy "Subtask must belong to a Task (parent_issue_id required).")
      else .ok ()
    else
      match findStory db (parentId.getD 0) with
      | none => .error (.invalidHierarchy "Parent issue not found")
      | some ps =>
        if optTruthy currentIssueId then
          if parentId == currentIssueId then
            .error (.invalidHierarchy "Cannot set issue as its own parent.")
          else if cycleWalkAux db (currentIssueId.getD 0) 50 ps then
            .error .circularDependency
          else typeCheck curType ps
        else typeCheck curType ps

/-- Failure of the status transition guard, carrying the pending child count. -/
inductive TErr
  | invalidTransition (pendingCount : Nat)
deriving DecidableEq

/-- Direct children whose status, read case-insensitively with a null status as
the empty string, is not Done. -/
def pendingChildren (db : DB) (s : UserStory) : List UserStory :=
  (childrenOf db s).filter (fun c => strLower (c.status.getD "") != strLower "Done")

/-- validate_status_transition (app/utils/story_validation.py, lines 56 to 66). -/
def validate_status_transition (db : DB) (s : UserStory) (newStatus : String) :
    Except TErr Unit :=
  if newStatus == "" || some newStatus == s.status then .ok ()
  else if strLower newStatus == strLower "Done" then
    if (pendingChildren db s).length > 0 then
      .error (.invalidTransition (pendingChildren db s).length)
    else .ok ()
  else .ok ()

/-- Digit-string parse: some value when the characters are nonempty and all
ASCII digits, none otherwise. -/
def digitsToNat? (cs : List Char) : Option Nat :=
  if cs ≠ [] ∧ cs.all Char.isDigit then
    some (cs.foldl (fun a c => a * 10 + (c.toNat - 48)) 0)
  else none

/-- Python int() applied to one dash-free segment of an identifier: surrounding
whitespace is stripped and a leading plus sign is accepted.  A minus sign never
occurs here because the caller feeds segments produced by splitting on the dash,
so the result is a natural number; digit-group underscores are not modelled. -/
def pyInt? (s : String) : Option Nat :=
  match trimChars s.data with
  | '+' :: rest => digitsToNat? rest
  | cs => digitsToNat? cs

/-- Prefix resolution of get_next_story_code (app/utils/story_repo.py line 12):
the configured project_prefix when truthy, else the first two characters of the
project name upper-cased when the name is truthy, else the literal XX. -/
def resolvePfx (project : Project) : String :=
  if project.pfx != "" then project.pfx
  else if project.name != "" then strUpper (strTake project.name 2)
  else "XX"

/-- Python format spec 04d: decimal digits zero-padded on the left to width 4;
wider numbers print unchanged. -/
def zpad4 (n : Nat) : String :=
  let s := toString n
  if s.length < 4 then String.mk (List.replicate (4 - s.length) '0') ++ s else s

/-- get_next_story_code (app/utils/story_repo.py, lines 10 to 26; the copy
_generate_story_code in app/db_utils/story_utils.py lines 96 to 113 is
identical).  The error case models the 404 of get_object_or_404 on a missing
project.  The story scan filters on story_pointer LIKE prefix-%, with no
project column in the filter. -/
def get_next_story_code (db : DB) (projectId : Nat) : Except String String :=
  match findProject db projectId with
  | none => .error "Project not found"
  | some project =>
    let prefixVal := resolvePfx project
    let matched := db.stories.filter (fun s =>
      match s.storyPointer with
      | some v => strStartsWith v (prefixVal ++ "-")
      | none => false)
    let maxNum := matched.foldl (fun acc s =>
      match s.storyPointer with
      | some v =>
        match pyInt? (lastDashSegment v) with
        | some num => if num > acc then num else acc
        | none => acc
      | none => acc) 0
    .ok (prefixVal ++ "-" ++ zpad4 (maxNum + 1))

/-- Outcome of the delete endpoint.  projectMissing covers the snapshot in
which the story row references an absent project, a state foreign-key integrity
rules out; the Python attribute access story.project.is_active would fault
there. -/
inductive DeleteOutcome
  | storyNotFound
  | projectMissing
  | projectInactive
  | deleted (msg : String)
deriving DecidableEq

/-- db.delete(story): the row disappears from the snapshot. -/
def eraseStory (db : DB) (storyId : Nat) : DB :=
  { db with stories := db.stories.filter (fun s => s.id != storyId) }

/-- delete_user_story endpoint (app/endpoints/v1/stories_api.py, lines 243 to
255): load the story, 404 when absent, reject when the project is inactive,
then delete through story_service.delete_story (app/utils/story_service.py,
lines 181 to 183) and answer with the success message.  The authenticated user
is a parameter of the route but no permission function is invoked. -/
def delete_user_story (db : DB) (_user : User) (storyId : Nat) : DeleteOutcome × DB :=
  match findStory db storyId with
  | none => (.storyNotFound, db)
  | some story =>
    match findProject db story.projectId with
    | none => (.projectMissing, db)
    | some p =>
      if !p.isActive then (.projectInactive, db)
      else (.deleted "Story deleted successfully", eraseStory db story.id)

/-- Stored-state mutations reachable through the User model setters. -/
inductive UserOp
  | setRoleOp (r : String)
  | setViewModeOp (v : String)

/-- Application of one setter. -/
def applyOp (u : User) : UserOp → User
  | .setRoleOp r => u.setRole r
  | .setViewModeOp v => u.setViewMode v

/-- Application of a sequence of setters, oldest first. -/
def applyOps (u : User) (ops : List UserOp) : User :=
  ops.foldl applyOp u

/-- Condition: the issue has an assigned team and the user leads that specific
team within the same project. -/
def leadsIssueTeam (db : DB) (u : User) (s : UserStory) : Bool :=
  if optTruthy s.teamId then
    match findTeam db (s.teamId.getD 0) with
    | some team => team.leadId == some u.id && team.projectId == s.projectId
    | none => false
  else false

/-- Condition: the user leads at least one team belonging to the project. -/
def leadsAnyTeamInProject (db : DB) (u : User) (pid : Nat) : Bool :=
  db.teams.any (fun t => t.projectId == pid && t.leadId == some u.id)

/-- Condition: the issue has an assigned team and the user appears in its
member list. -/
def memberOfIssueTeam (db : DB) (u : User) (s : UserStory) : Bool :=
  if optTruthy s.teamId then
    match findTeam db (s.teamId.getD 0) with
    | some team => team.memberIds.contains u.id
    | none => false
  else false

/-- Condition: some issue of the project is assigned to the user. -/
def assignedAnyInProject (db : DB) (u : User) (pid : Nat) : Bool :=
  db.stories.any (fun st => st.projectId == pid && st.assigneeId == some u.id)

/-- Follows the words of claim C1, not the code: update permission decided by
the global role, with an ADMIN or OWNER role passing outright and the DEVELOPER
role falling through team-lead and assignee checks. -/
def claimCanUpdateIssue (db : DB) (u : User) (s : UserStory) (p : Project) : Bool :=
  if !p.isActive then false
  else if u.isMasterAdmin || u.role == "ADMIN" || u.role == "OWNER" then true
  else if u.role == "DEVELOPER" then
    if leadsIssueTeam db u s then true
    else if leadsAnyTeamInProject db u s.projectId then true
    else s.assigneeId == some u.id
  else false

/-- Claim C1 as amended to the code: the stored global role is never consulted.
The decision is: project active, and then master admin passes; a user in ADMIN
view mode passes exactly when owning the project; a user in any other view mode
is refused as owner and otherwise passes exactly when leading the assigned team
of the issue within its project or being the direct assignee. -/
def amendedCanUpdateIssue (db : DB) (u : User) (s : UserStory) (p : Project) : Bool :=
  p.isActive &&
    (u.isMasterAdmin
     || (u.viewMode == "ADMIN" && p.ownerId == some u.id)
     || (!(u.viewMode == "ADMIN") && !(p.ownerId == some u.id)
         && (leadsIssueTeam db u s || s.assigneeId == some u.id)))

/-- Follows the words of claim C2, not the code: view permission decided by the
global role, with membership of the team of the issue and assignment elsewhere
in the project granting nothing. -/
def claimCanViewIssue (db : DB) (u : User) (s : UserStory) (_p : Project) : Bool :=
  u.isMasterAdmin || u.role == "ADMIN" || u.role == "OWNER"
  || (u.role == "DEVELOPER" &&
      (leadsIssueTeam db u s
       || leadsAnyTeamInProject db u s.projectId
       || s.assigneeId == some u.id))

/-- Claim C2 as amended to the code: the stored global role is never consulted
and no project-active check exists.  Master admin passes; ADMIN view mode
passes exactly on ownership; any other view mode is refused as owner and
otherwise passes when leading any team of the project, or appearing in the
member list of the team of the issue, or being the direct assignee, or being
assigned to any issue of the same project. -/
def amendedCanViewIssue (db : DB) (u : User) (s : UserStory) (p : Project) : Bool :=
  u.isMasterAdmin
  || (u.viewMode == "ADMIN" && p.ownerId == some u.id)
  || (!(u.viewMode == "ADMIN") && !(p.ownerId == some u.id)
      && (leadsAnyTeamInProject db u s.projectId
          || memberOfIssueTeam db u s
          || s.assigneeId == some u.id
          || assignedAnyInProject db u s.projectId))

/-- Follows the words of claim C5: delete permission as the disjunction of
master admin, ADMIN view mode with ownership, and leadership of the assigned
team of the issue, all under an active project. -/
def claimCanDeleteIssue (db : DB) (u : User) (s : UserStory) (p : Project) : Bool :=
  p.isActive &&
    (u.isMasterAdmin
     || (u.viewMode == "ADMIN" && p.ownerId == some u.id)
     || leadsIssueTeam db u s)

/-- Follows the words of claim C4: create permission with the project-wide
team test written directly as leadership or membership of some team of the
project. -/
def claimCanCreateIssue (db : DB) (u : User) (projectId : Nat) (_teamId : Option Nat) : Bool :=
  match findProject db projectId with
  | none => false
  | some project =>
    if !project.isActive then false
    else if u.isMasterAdmin then true
    else if u.viewMode == "ADMIN" then project.ownerId == some u.id
    else if project.ownerId == some u.id then false
    else
      db.teams.any (fun t =>
        t.projectId == projectId && (t.leadId == some u.id || t.memberIds.contains u.id))

/-- Follows the words of claim C9, not the code: the scan covers only the
identifiers of project p, and an identifier counts only when it is exactly the
prefix, a dash, and a digit string. -/
def claimNextStoryCode (db : DB) (projectId : Nat) : Option String :=
  match findProject db projectId with
  | none => none
  | some project =>
    let prefixVal := resolvePfx project
    let nums := db.stories.filterMap (fun s =>
      if s.projectId == projectId then
        match s.storyPointer with
        | some v =>
          if strStartsWith v (prefixVal ++ "-") then
            digitsToNat? (strDrop v (prefixVal.length + 1)).data
          else none
        | none => none
      else none)
    some (prefixVal ++ "-" ++ zpad4 (nums.foldl max 0 + 1))

/-- Claim C9 as amended to the code: the scan is not restricted to project p;
it covers every story whose identifier starts with the prefix and a dash, in
any project, and the numeric suffix is the last dash-separated segment parsed
as a Python int, unparsable values skipped. -/
def amendedNextStoryCode (db : DB) (projectId : Nat) : Option String :=
  match findProject db projectId with
  | none => none
  | some project =>
    let prefixVal := resolvePfx project
    let nums := db.stories.filterMap (fun s =>
      match s.storyPointer with
      | some v =>
        if strStartsWith v (prefixVal ++ "-") then pyInt? (lastDashSegment v)
        else none
      | none => none)
    some (prefixVal ++ "-" ++ zpad4 (nums.foldl max 0 + 1))

/-- Concrete input refuting claim C1: a user whose stored role is ADMIN but
whose view mode is DEVELOPER, owning nothing in an active project. -/
def uC1 : User := ⟨1, "alice@example.com", some "ADMIN", some "DEVELOPER"⟩

/-- Active project owned by user 99. -/
def pC1 : Project := ⟨1, "Alpha", "AL", some 99, true⟩

/-- Story with no team and no assignee in project 1. -/
def sC1 : UserStory := ⟨1, 1, none, none, none, "Task", some "TODO", some "AL-0001"⟩

/-- Snapshot for the C1 counterexample. -/
def dbC1 : DB := ⟨[pC1], [], [sC1]⟩

/-- C1 counterexample: the code denies the update to a user with global role
ADMIN, while the claim as stated grants it; the role column is never consulted
by can_update_issue. -/
theorem can_update_issue_claim_counterexample :
    can_update_issue dbC1 uC1 sC1 pC1 = false ∧
    claimCanUpdateIssue dbC1 uC1 sC1 pC1 = true :=
  ⟨rfl, rfl⟩

/-- C1 amended: can_update_issue decides by view mode, ownership, leadership of
the assigned team of the issue, and direct assignment, never by the global
role; the equality holds on every snapshot, user, story and project row. -/
theorem can_update_issue_matches_amended (db : DB) (u : User) (s : UserStory) (p : Project) :
    can_update_issue db u s p = amendedCanUpdateIssue db u s p := by
  unfold can_update_issue amendedCanUpdateIssue leadsIssueTeam
  cases hA : p.isActive <;>
    cases hM : u.isMasterAdmin <;>
      cases hV : (u.viewMode == "ADMIN") <;>
        cases hO : (p.ownerId == some u.id) <;>
          cases hT : (if optTruthy s.teamId then
              (match findTeam db (s.teamId.getD 0) with
               | some team => team.leadId == some u.id && team.projectId == s.projectId
               | none => false)
            else false) <;>
            cases hC : (s.assigneeId == some u.id) <;> rfl

/-- Concrete input refuting claim C2: a plain member of the team of the issue,
leading nothing and assigned nothing. -/
def uC2 : User := ⟨2, "bob@example.com", some "DEVELOPER", some "DEVELOPER"⟩

/-- Team 5 of project 1, led by user 99, with user 2 as a member. -/
def tC2 : Team := ⟨5, 1, some 99, [2]⟩

/-- Active project owned by user 99. -/
def pC2 : Project := ⟨1, "Alpha", "AL", some 99, true⟩

/-- Story of project 1 assigned to team 5 with no assignee. -/
def sC2 : UserStory := ⟨1, 1, some 5, none, none, "Task", some "TODO", some "AL-0001"⟩

/-- Snapshot for the C2 counterexample. -/
def dbC2 : DB := ⟨[pC2], [tC2], [sC2]⟩

/-- C2 counterexample: the code grants view access through plain membership of
the team of the issue, which the claim as stated rules out. -/
theorem can_view_issue_claim_counterexample :
    can_view_issue dbC2 uC2 sC2 pC2 = true ∧
    claimCanViewIssue dbC2 uC2 sC2 pC2 = false :=
  ⟨rfl, rfl⟩

/-- C2 amended: can_view_issue decides by view mode and ownership, then grants
a non-owner outside ADMIN view mode access through leadership of any team of
the project, membership of the team of the issue, direct assignment, or
assignment to any issue of the project; the role column is never consulted. -/
theorem can_view_issue_matches_amended (db : DB) (u : User) (s : UserStory) (p : Project) :
    can_view_issue db u s p = amendedCanViewIssue db u s p := by
  unfold can_view_issue amendedCanViewIssue leadsAnyTeamInProject memberOfIssueTeam
    assignedAnyInProject
  cases hM : u.isMasterAdmin <;>
    cases hV : (u.viewMode == "ADMIN") <;>
      cases hO : (p.ownerId == some u.id) <;>
        cases hL : (db.teams.any (fun t => t.projectId == s.projectId && t.leadId == some u.id)) <;>
          cases hMem : (if optTruthy s.teamId then
              (match findTeam db (s.teamId.getD 0) with
               | some team => team.memberIds.contains u.id
               | none => false)
            else false) <;>
            cases hC : (s.assigneeId == some u.id) <;>
              cases hAP : (db.stories.any (fun st =>
                  st.projectId == s.projectId && st.assigneeId == some u.id)) <;> rfl

/-- C5: can_delete_issue grants delete exactly to the master admin, to an
ADMIN-view-mode owner of the project, and to the lead of the assigned team of
the issue within the same project, always denying on an inactive project; in
particular a lead of some other team of the project is denied. -/
theorem can_delete_issue_matches_claim (db : DB) (u : User) (s : UserStory) (p : Project) :
    can_delete_issue db u s p = claimCanDeleteIssue db u s p := by
  unfold can_delete_issue claimCanDeleteIssue leadsIssueTeam
  cases hA : p.isActive <;>
    cases hM : u.isMasterAdmin <;>
      cases hV : (u.viewMode == "ADMIN") <;>
        cases hO : (p.ownerId == some u.id) <;>
          cases hT : (if optTruthy s.teamId then
              (match findTeam db (s.teamId.getD 0) with
               | some team => team.leadId == some u.id && team.projectId == s.projectId
               | none => false)
            else false) <;> rfl

/-- Under unique team ids, the indirect membership test of can_create_issue
(the team id occurring among the ids of the teams whose member list holds the
user) agrees with direct membership of the team. -/
theorem userTeamIds_contains_eq (db : DB) (u : User) (t : Team)
    (hnd : (db.teams.map Team.id).Nodup) (ht : t ∈ db.teams) :
    (userTeamIds db u).contains t.id = t.memberIds.contains u.id := by
  unfold userTeamIds
  rw [Bool.eq_iff_iff]
  simp only [List.elem_iff, List.mem_map, List.mem_filter]
  constructor
  · rintro ⟨t2, ⟨ht2, hm2⟩, hid⟩
    have heq : t2 = t := List.inj_on_of_nodup_map hnd ht2 ht hid
    subst heq
    exact hm2
  · intro hm
    exact ⟨t, ⟨ht, hm⟩, rfl⟩

/-- C4: can_create_issue behaves exactly as claimed, on every snapshot with
unique team ids: fail closed on a missing or inactive project, master admin
passes, an ADMIN-view-mode user passes exactly on ownership, any other view
mode refuses the owner and otherwise grants exactly on leading or belonging to
some team of the project; the teamId argument is immaterial, which the two
independent teamId parameters of the statement express. -/
theorem can_create_issue_matches_claim (db : DB) (u : User) (pid : Nat)
    (tid tid2 : Option Nat) (hnd : (db.teams.map Team.id).Nodup) :
    can_create_issue db u pid tid = claimCanCreateIssue db u pid tid2 := by
  unfold can_create_issue claimCanCreateIssue
  have key : (db.teams.any (fun t => t.projectId == pid &&
        (t.leadId == some u.id || (userTeamIds db u).contains t.id)))
      = (db.teams.any (fun t => t.projectId == pid &&
        (t.leadId == some u.id || t.memberIds.contains u.id))) := by
    rw [Bool.eq_iff_iff]
    simp only [List.any_eq_true]
    constructor
    · rintro ⟨t, ht, hc⟩
      refine ⟨t, ht, ?_⟩
      rwa [userTeamIds_contains_eq db u t hnd ht] at hc
    · rintro ⟨t, ht, hc⟩
      refine ⟨t, ht, ?_⟩
      rwa [userTeamIds_contains_eq db u t hnd ht]
  cases hP : findProject db pid with
  | none => rfl
  | some project =>
    simp only [key]

/-- Project 1 owned by user 7, active. -/
def pC4 : Project := ⟨1, "Gamma", "GA", some 7, true⟩

/-- Owner of project 1 in ADMIN view mode. -/
def uC4a : User := ⟨7, "carol@example.com", some "DEVELOPER", some "ADMIN"⟩

/-- Same owner in DEVELOPER view mode. -/
def uC4d : User := ⟨7, "carol@example.com", some "DEVELOPER", some "DEVELOPER"⟩

/-- Snapshot for the C4 witness. -/
def dbC4 : DB := ⟨[pC4], [], []⟩

/-- C4 witness: the equality at a concrete snapshot, together with the
concrete scenario of the claim, where the owner passes in ADMIN view mode and
is refused in DEVELOPER view mode. -/
theorem can_create_issue_matches_claim_witness :
    (can_create_issue dbC4 uC4a 1 none = claimCanCreateIssue dbC4 uC4a 1 none)
    ∧ can_create_issue dbC4 uC4a 1 none = true
    ∧ can_create_issue dbC4 uC4d 1 none = false :=
  ⟨can_create_issue_matches_claim dbC4 uC4a 1 none none (by decide), rfl, rfl⟩

/-- A deleted story id is gone from the snapshot. -/
theorem findStory_eraseStory (db : DB) (sid : Nat) :
    findStory (eraseStory db sid) sid = none := by
  unfold findStory eraseStory
  refine List.find?_eq_none.mpr ?_
  intro x hx
  simp only [List.mem_filter] at hx
  simpa using hx.2

/-- C3: the delete endpoint consults no permission function.  Its outcome is
identical for any two authenticated users; when the story exists and its
project is active it deletes the story and answers with the success message;
the only failure outcomes are a missing story and an inactive project. -/
theorem delete_user_story_no_permission_gate (db : DB) (u u2 : User) (storyId : Nat) :
    (delete_user_story db u storyId = delete_user_story db u2 storyId) ∧
    (findStory db storyId = none →
       delete_user_story db u storyId = (.storyNotFound, db)) ∧
    (∀ story p, findStory db storyId = some story →
       findProject db story.projectId = some p →
       (p.isActive = true →
          delete_user_story db u storyId =
            (.deleted "Story deleted successfully", eraseStory db story.id) ∧
          findStory (eraseStory db story.id) storyId = none) ∧
       (p.isActive = false →
          delete_user_story db u storyId = (.projectInactive, db))) := by
  refine ⟨rfl, ?_, ?_⟩
  · intro h
    unfold delete_user_story
    rw [h]
  · intro story p hs hp
    have hid : story.id = storyId := by
      have := List.find?_some hs
      simpa using this
    constructor
    · intro hA
      constructor
      · simp [delete_user_story, hs, hp, hA]
      · rw [hid]
        exact findStory_eraseStory db storyId
    · intro hA
      simp [delete_user_story, hs, hp, hA]

/-- Active project for the C3 witness. -/
def pC3 : Project := ⟨1, "Delta", "DL", some 50, true⟩

/-- Story 10 of project 1, with a team and an assignee unrelated to the
deleting users. -/
def sC3 : UserStory := ⟨10, 1, none, some 60, none, "Task", some "TODO", some "DL-0001"⟩

/-- Snapshot for the C3 witness. -/
def dbC3 : DB := ⟨[pC3], [], [sC3]⟩

/-- Unprivileged developer, not owner, not assignee. -/
def uC3a : User := ⟨2, "dave@example.com", some "DEVELOPER", some "DEVELOPER"⟩

/-- A second unrelated user in ADMIN view mode. -/
def uC3b : User := ⟨3, "erin@example.com", some "TESTER", some "ADMIN"⟩

/-- C3 witness: at the concrete snapshot the delete succeeds for an
unprivileged user, with the same outcome for a second unrelated user. -/
theorem delete_user_story_no_permission_gate_witness :
    delete_user_story dbC3 uC3a 10 =
      (.deleted "Story deleted successfully", eraseStory dbC3 10) ∧
    delete_user_story dbC3 uC3a 10 = delete_user_story dbC3 uC3b 10 := by
  have h := delete_user_story_no_permission_gate dbC3 uC3a uC3b 10
  exact ⟨((h.2.2 sC3 pC3 rfl rfl).1 rfl).1, h.1⟩

/-- The setters never change the email column. -/
theorem applyOps_email (ops : List UserOp) (u : User) :
    (applyOps u ops).email = u.email := by
  induction ops generalizing u with
  | nil => rfl
  | cons op ops ih =>
    show (applyOps (applyOp u op) ops).email = u.email
    rw [ih (applyOp u op)]
    cases op with
    | setRoleOp r => rfl
    | setViewModeOp v =>
      show (User.setViewMode u v).email = u.email
      unfold User.setViewMode
      cases (u.email == masterEmail) <;> rfl

/-- For the reserved identity, the stored view-mode column survives every
sequence of setter calls untouched. -/
theorem applyOps_master_storedViewMode (ops : List UserOp) (u : User)
    (hm : u.email = masterEmail) :
    (applyOps u ops).storedViewMode = u.storedViewMode := by
  induction ops generalizing u with
  | nil => rfl
  | cons op ops ih =>
    show (applyOps (applyOp u op) ops).storedViewMode = u.storedViewMode
    have hm2 : (applyOp u op).email = masterEmail := by
      have he : (applyOps u [op]).email = u.email := applyOps_email [op] u
      simpa [applyOps, applyOp] using he.trans hm
    rw [ih (applyOp u op) hm2]
    cases op with
    | setRoleOp r => rfl
    | setViewModeOp v =>
      show (User.setViewMode u v).storedViewMode = u.storedViewMode
      simp [User.setViewMode, hm]

/-- C10: the reserved identity computes role MASTER_ADMIN and view mode ADMIN
whatever the stored columns hold, keeps doing so after every sequence of
setter calls, survives any view-mode write with identical state, and its
stored view-mode column never changes. -/
theorem master_admin_override (u : User) (hm : u.email = masterEmail) :
    (∀ ops : List UserOp,
       (applyOps u ops).role = "MASTER_ADMIN" ∧
       (applyOps u ops).viewMode = "ADMIN" ∧
       (applyOps u ops).storedViewMode = u.storedViewMode) ∧
    (∀ v, u.setViewMode v = u) := by
  constructor
  · intro ops
    have he : (applyOps u ops).email = masterEmail := (applyOps_email ops u).trans hm
    refine ⟨?_, ?_, applyOps_master_storedViewMode ops u hm⟩
    · simp [User.role, he]
    · simp [User.viewMode, he]
  · intro v
    simp [User.setViewMode, hm]

/-- The reserved identity with adversarial stored columns. -/
def uMaster : User := ⟨1, "admin@jira.local", some "TESTER", some "DEVELOPER"⟩

/-- C10 witness: after a role write and a view-mode write, the reserved
identity still computes MASTER_ADMIN and ADMIN, with the stored view-mode
column untouched. -/
theorem master_admin_override_witness :
    (applyOps uMaster [UserOp.setRoleOp "DEVELOPER", UserOp.setViewModeOp "DEVELOPER"]).role
        = "MASTER_ADMIN" ∧
    (applyOps uMaster [UserOp.setRoleOp "DEVELOPER", UserOp.setViewModeOp "DEVELOPER"]).viewMode
        = "ADMIN" ∧
    (applyOps uMaster [UserOp.setRoleOp "DEVELOPER", UserOp.setViewModeOp "DEVELOPER"]).storedViewMode
        = uMaster.storedViewMode := by
  have h := master_admin_override uMaster rfl
  exact h.1 [UserOp.setRoleOp "DEVELOPER", UserOp.setViewModeOp "DEVELOPER"]

/-- C8: the status transition guard is a no-op on an empty new status or on a
case-sensitively identical status; a transition whose case-insensitive form is
Done fails with InvalidTransition carrying the count of pending direct
children whenever that count is positive and succeeds once it is zero; every
other transition is accepted unconditionally. -/
theorem validate_status_transition_policy (db : DB) (s : UserStory) (n : String) :
    (n = "" → validate_status_transition db s n = .ok ()) ∧
    (s.status = some n → validate_status_transition db s n = .ok ()) ∧
    (n ≠ "" → s.status ≠ some n → strLower n = strLower "Done" →
       ((pendingChildren db s).length = 0 →
          validate_status_transition db s n = .ok ()) ∧
       (0 < (pendingChildren db s).length →
          validate_status_transition db s n =
            .error (.invalidTransition (pendingChildren db s).length))) ∧
    (strLower n ≠ strLower "Done" → validate_status_transition db s n = .ok ()) := by
  refine ⟨?_, ?_, ?_, ?_⟩
  · intro h
    simp [validate_status_transition, h]
  · intro h
    simp [validate_status_transition, h.symm]
  · intro h1 h2 h3
    constructor
    · intro hz
      simp [validate_status_transition, h1, Ne.symm h2, h3, hz]
    · intro hp
      simp [validate_status_transition, h1, Ne.symm h2, h3, hp]
  · intro hd
    by_cases h1 : n = ""
    · simp [validate_status_transition, h1]
    · by_cases h2 : some n = s.status
      · simp [validate_status_transition, h2]
      · simp [validate_status_transition, h1, h2, hd]

/-- Parent story 1 with a pending child, for the C8 witness. -/
def sC8 : UserStory := ⟨1, 1, none, none, none, "Story", some "TODO", some "AL-0001"⟩

/-- Direct child of story 1, not yet Done. -/
def cC8 : UserStory := ⟨2, 1, none, none, some 1, "Task", some "In Progress", some "AL-0002"⟩

/-- Direct child of story 1, already done in another letter case. -/
def dC8 : UserStory := ⟨3, 1, none, none, some 1, "Task", some "dOnE", some "AL-0003"⟩

/-- Snapshot with one pending child for the C8 witness. -/
def dbC8 : DB := ⟨[], [], [sC8, cC8, dC8]⟩

/-- Snapshot where every child of story 1 is done. -/
def dbC8ok : DB := ⟨[], [], [sC8, dC8]⟩

/-- C8 witness: with one pending child the transition DONE fails carrying
count 1; once all children are done the identical request succeeds. -/
theorem validate_status_transition_policy_witness :
    validate_status_transition dbC8 sC8 "DONE" = .error (.invalidTransition 1) ∧
    validate_status_transition dbC8ok sC8 "DONE" = .ok () := by
  constructor
  · have h := (validate_status_transition_policy dbC8 sC8 "DONE").2.2.1
      (by decide) (by decide) (by decide)
    exact h.2 (by decide)
  · have h := (validate_status_transition_policy dbC8ok sC8 "DONE").2.2.1
      (by decide) (by decide) (by decide)
    exact h.1 (by decide)

/-- On a create-style call with a known issue type, a truthy parent id and a
resolved parent row, the validator reduces to the type-compatibility check. -/
theorem validate_hierarchy_create_reduce (db : DB) (parentId : Option Nat) (ty : String)
    (T : IssueType) (pid : Nat) (ps : UserStory) (hT : IssueType.ofString? ty = some T)
    (hpid : parentId = some pid) (hTruthy : optTruthy parentId = true)
    (hFind : findStory db pid = some ps) :
    validate_hierarchy db parentId ty none = typeCheck T ps := by
  subst hpid
  have hpid0 : pid ≠ 0 := by simpa [optTruthy] using hTruthy
  simp [validate_hierarchy, hT, hFind, optTruthy, hpid0]

/-- C7: for a create-style call (no current issue id) with a known issue type,
the validator accepts a missing parent exactly for non-Subtask types, rejecting
the Subtask case with an InvalidHierarchy error; and with a resolvable parent
of known type it accepts exactly when the parent type lies in the
valid_parents table of the issue type, rejecting every other combination with
an InvalidHierarchy error. -/
theorem validate_hierarchy_type_table (db : DB) (parentId : Option Nat) (ty : String)
    (T : IssueType) (hT : IssueType.ofString? ty = some T) :
    (optTruthy parentId = false →
       (validate_hierarchy db parentId ty none = .ok () ↔ T ≠ .subtask) ∧
       (T = .subtask →
          ∃ msg, validate_hierarchy db parentId ty none = .error (.invalidHierarchy msg))) ∧
    (∀ pid ps PT, parentId = some pid → optTruthy parentId = true →
       findStory db pid = some ps → IssueType.ofString? ps.issueType = some PT →
       (validate_hierarchy db parentId ty none = .ok () ↔ PT ∈ T.valid_parents) ∧
       (PT ∉ T.valid_parents →
          ∃ msg, validate_hierarchy db parentId ty none = .error (.invalidHierarchy msg))) := by
  constructor
  · intro hFalsy
    unfold validate_hierarchy
    simp only [hT, hFalsy]
    constructor
    · cases T <;> simp
    · intro hS
      subst hS
      exact ⟨_, rfl⟩
  · intro pid ps PT hpid hTruthy hFind hPT
    rw [validate_hierarchy_create_reduce db parentId ty T pid ps hT hpid hTruthy hFind]
    unfold typeCheck
    simp only [hPT]
    cases T <;> cases PT <;>
      refine ⟨by decide, fun hmem => ?_⟩ <;>
        first
          | exact ⟨_, rfl⟩
          | exact (hmem (by decide)).elim

/-- Story 2 of type Task, a parent candidate. -/
def psC7 : UserStory := ⟨2, 1, none, none, none, "Task", some "TODO", none⟩

/-- Snapshot for the C7 witness. -/
def dbC7 : DB := ⟨[], [], [psC7]⟩

/-- C7 witness: a Bug under a Task parent is accepted; a Subtask without a
parent is rejected with an InvalidHierarchy error. -/
theorem validate_hierarchy_type_table_witness :
    validate_hierarchy dbC7 (some 2) "Bug" none = .ok () ∧
    (∃ msg, validate_hierarchy dbC7 none "Subtask" none = .error (.invalidHierarchy msg)) := by
  constructor
  · exact ((validate_hierarchy_type_table dbC7 (some 2) "Bug" .bug rfl).2
      2 psC7 .task rfl rfl rfl rfl).1.mpr (by decide)
  · exact ((validate_hierarchy_type_table dbC7 none "Subtask" .subtask rfl).1 rfl).2 rfl

/-- The bounded ancestor walk finds the current issue id exactly when that id
occurs among the parent ids it visits. -/
theorem cycleWalkAux_eq_mem (db : DB) (cur : Nat) :
    ∀ (fuel : Nat) (s : UserStory),
      cycleWalkAux db cur fuel s = true ↔ cur ∈ ancestorIds db fuel s := by
  intro fuel
  induction fuel with
  | zero => intro s; simp [cycleWalkAux, ancestorIds]
  | succ n ih =>
    intro s
    unfold cycleWalkAux ancestorIds
    cases hp : s.parentIssueId with
    | none => simp
    | some pid =>
      by_cases hz : pid = 0
      · simp [hz]
      · by_cases he : cur = pid
        · subst he
          simp [hz]
        · cases hf : findStory db pid with
          | none => simp [hz, he, Ne.symm he, hf]
          | some next => simp [hz, he, Ne.symm he, hf, ih next]

/-- The bounded walk visits at most fuel parent ids. -/
theorem ancestorIds_length_le (db : DB) :
    ∀ (fuel : Nat) (s : UserStory), (ancestorIds db fuel s).length ≤ fuel := by
  intro fuel
  induction fuel with
  | zero => intro s; simp [ancestorIds]
  | succ n ih =>
    intro s
    unfold ancestorIds
    cases hp : s.parentIssueId with
    | none => simp
    | some pid =>
      by_cases hz : pid = 0
      · simp [hz]
      · cases hf : findStory db pid with
        | none => simp [hz, hf]
        | some next =>
          have hnext := ih next
          simp [hz, hf]
          omega

/-- The type-compatibility check never reports a circular dependency. -/
theorem typeCheck_ne_circular (T : IssueType) (ps : UserStory) :
    typeCheck T ps ≠ .error .circularDependency := by
  cases hpt : IssueType.ofString? ps.issueType with
  | none => simp [typeCheck, hpt]
  | some PT => cases T <;> cases PT <;> simp [typeCheck, hpt]

/-- C6: on an update-style call, a truthy current issue id equal to the
proposed parent id yields an InvalidHierarchy error; with a known issue type
and a resolved parent distinct from the current issue, the call reports
CircularDependency exactly when the current issue id occurs among the parent
ids on the bounded ancestor chain of the proposed parent, and otherwise
reduces to the type-compatibility verdict, so a non-cyclic reassignment whose
chain resolves within the bound passes the cycle check; the inspected chain
holds at most 50 ids, and an id beyond that horizon counts as no cycle. -/
theorem validate_hierarchy_cycle_policy (db : DB) (ty : String) (parentId cur : Option Nat) :
    ((optTruthy parentId = true → parentId = cur →
        ∃ msg, validate_hierarchy db parentId ty cur = .error (.invalidHierarchy msg)) ∧
     (∀ T pid ps, IssueType.ofString? ty = some T → parentId = some pid →
        optTruthy parentId = true → findStory db pid = some ps →
        optTruthy cur = true → parentId ≠ cur →
        ((validate_hierarchy db parentId ty cur = .error .circularDependency ↔
            cur.getD 0 ∈ ancestorIds db 50 ps) ∧
         (cur.getD 0 ∉ ancestorIds db 50 ps →
            validate_hierarchy db parentId ty cur = typeCheck T ps))) ∧
     (∀ s, (ancestorIds db 50 s).length ≤ 50)) := by
  refine ⟨?_, ?_, fun s => ancestorIds_length_le db 50 s⟩
  · intro hTruthy heq
    subst heq
    cases hty : IssueType.ofString? ty with
    | none =>
      exact ⟨"Invalid issue type: " ++ ty, by simp [validate_hierarchy, hty]⟩
    | some T =>
      cases hf : findStory db (parentId.getD 0) with
      | none =>
        exact ⟨"Parent issue not found",
          by simp [validate_hierarchy, hty, hTruthy, hf]⟩
      | some ps =>
        exact ⟨"Cannot set issue as its own parent.",
          by simp [validate_hierarchy, hty, hTruthy, hf]⟩
  · intro T pid ps hT hpid hTruthy hFind hCur hne
    subst hpid
    have hpid0 : pid ≠ 0 := by simpa [optTruthy] using hTruthy
    have hbne : (some pid == cur) = false := beq_eq_false_iff_ne.mpr hne
    have hred : validate_hierarchy db (some pid) ty cur =
        (if cycleWalkAux db (cur.getD 0) 50 ps then .error .circularDependency
         else typeCheck T ps) := by
      simp [validate_hierarchy, hT, hFind, hTruthy, hCur, hbne]
    rw [hred]
    constructor
    · cases hw : cycleWalkAux db (cur.getD 0) 50 ps
      · simp only [hw, if_neg Bool.false_ne_true]
        constructor
        · intro h
          exact absurd h (typeCheck_ne_circular T ps)
        · intro hmem
          have := (cycleWalkAux_eq_mem db (cur.getD 0) 50 ps).mpr hmem
          rw [hw] at this
          cases this
      · simp only [hw, if_pos rfl]
        constructor
        · intro _
          exact (cycleWalkAux_eq_mem db (cur.getD 0) 50 ps).mp hw
        · intro _
          rfl
    · intro hnot
      have hwf : cycleWalkAux db (cur.getD 0) 50 ps = false := by
        cases hw : cycleWalkAux db (cur.getD 0) 50 ps
        · rfl
        · exact absurd ((cycleWalkAux_eq_mem db (cur.getD 0) 50 ps).mp hw) hnot
      rw [hwf]
      simp

/-- Root story 1 for the C6 witness. -/
def w1C6 : UserStory := ⟨1, 1, none, none, none, "Epic", none, none⟩

/-- Story 2, child of story 1. -/
def w2C6 : UserStory := ⟨2, 1, none, none, some 1, "Story", none, none⟩

/-- Story 3, child of story 2. -/
def w3C6 : UserStory := ⟨3, 1, none, none, some 2, "Task", none, none⟩

/-- Story 5, unrelated to the chain. -/
def w5C6 : UserStory := ⟨5, 1, none, none, none, "Task", none, none⟩

/-- Snapshot for the C6 witness. -/
def dbC6 : DB := ⟨[], [], [w1C6, w2C6, w3C6, w5C6]⟩

/-- C6 witness: reparenting story 1 under its transitive descendant story 3
reports CircularDependency; reparenting the unrelated story 5 under story 2 is
accepted; self-parenting story 3 yields an InvalidHierarchy error. -/
theorem validate_hierarchy_cycle_policy_witness :
    validate_hierarchy dbC6 (some 3) "Epic" (some 1) = .error .circularDependency ∧
    validate_hierarchy dbC6 (some 2) "Task" (some 5) = .ok () ∧
    (∃ msg, validate_hierarchy dbC6 (some 3) "Task" (some 3) =
      .error (.invalidHierarchy msg)) := by
  have h := validate_hierarchy_cycle_policy dbC6 "Epic" (some 3) (some 1)
  have h2 := validate_hierarchy_cycle_policy dbC6 "Task" (some 2) (some 5)
  have h3 := validate_hierarchy_cycle_policy dbC6 "Task" (some 3) (some 3)
  refine ⟨?_, ?_, h3.1 rfl rfl⟩
  · exact ((h.2.1 .epic 3 w3C6 rfl rfl rfl rfl rfl (by decide)).1).mpr (by decide)
  · have hr := (h2.2.1 .task 2 w2C6 rfl rfl rfl rfl rfl (by decide)).2 (by decide)
    exact hr.trans (by decide)

/-- The running-maximum fold of the code equals a fold of max over the parsed
suffixes. -/
theorem codeFold_eq_filterMap_max (l : List UserStory) (acc : Nat) :
    l.foldl (fun acc s =>
      match s.storyPointer with
      | some v =>
        match pyInt? (lastDashSegment v) with
        | some num => if num > acc then num else acc
        | none => acc
      | none => acc) acc
    = (l.filterMap (fun s =>
        match s.storyPointer with
        | some v => pyInt? (lastDashSegment v)
        | none => none)).foldl max acc := by
  induction l generalizing acc with
  | nil => rfl
  | cons s l ih =>
    cases hsp : s.storyPointer with
    | none => simp [List.filterMap_cons, hsp, ih]
    | some v =>
      cases hn : pyInt? (lastDashSegment v) with
      | none => simp [List.filterMap_cons, hsp, hn, ih]
      | some num =>
        simp only [List.foldl_cons, List.filterMap_cons, hsp, hn, ih]
        have hmax : (if num > acc then num else acc) = max acc num := by
          by_cases h : num > acc
          · simp [h, Nat.max_eq_right (Nat.le_of_lt h)]
          · simp [h, Nat.max_eq_left (Nat.le_of_not_lt h)]
        rw [hmax]

/-- Filtering on the prefix and then parsing equals parsing with the prefix
test folded into the partial map. -/
theorem filterMap_prefix_filter (pv : String) (l : List UserStory) :
    (l.filter (fun s =>
      match s.storyPointer with
      | some v => strStartsWith v (pv ++ "-")
      | none => false)).filterMap (fun s =>
        match s.storyPointer with
        | some v => pyInt? (lastDashSegment v)
        | none => none)
    = l.filterMap (fun s =>
        match s.storyPointer with
        | some v =>
          if strStartsWith v (pv ++ "-") then pyInt? (lastDashSegment v) else none
        | none => none) := by
  induction l with
  | nil => rfl
  | cons s l ih =>
    cases hsp : s.storyPointer with
    | none => simp [List.filter_cons, List.filterMap_cons, hsp, ih]
    | some v =>
      by_cases hw : strStartsWith v (pv ++ "-") = true
      · simp [List.filter_cons, List.filterMap_cons, hsp, hw, ih]
      · simp only [Bool.not_eq_true] at hw
        simp [List.filter_cons, List.filterMap_cons, hsp, hw, ih]

/-- C9 as amended: the allocator answers a missing project with the not-found
error and otherwise produces the prefix, a dash and the zero-padded successor
of the maximal parsed suffix over every story whose identifier starts with the
prefix and a dash, in any project; the padding keeps four digits up to 9999
and widens beyond with no overflow. -/
theorem get_next_story_code_matches_amended :
    (∀ (db : DB) (pid : Nat),
       get_next_story_code db pid =
         (match amendedNextStoryCode db pid with
          | none => .error "Project not found"
          | some code => .ok code)) ∧
    zpad4 7 = "0007" ∧ zpad4 9999 = "9999" ∧ zpad4 10000 = "10000" ∧
    zpad4 123456 = "123456" := by
  refine ⟨?_, rfl, rfl, rfl, rfl⟩
  intro db pid
  unfold get_next_story_code amendedNextStoryCode
  cases hP : findProject db pid with
  | none => rfl
  | some project =>
    simp only [codeFold_eq_filterMap_max, filterMap_prefix_filter]

/-- Projects 1 and 2 share the prefix AB. -/
def p1C9 : Project := ⟨1, "Alpha", "AB", some 9, true⟩

/-- Second project with the same prefix. -/
def p2C9 : Project := ⟨2, "Beta", "AB", some 9, true⟩

/-- Story of project 2 carrying identifier AB-0007. -/
def sC9 : UserStory := ⟨1, 2, none, none, none, "Task", none, some "AB-0007"⟩

/-- Snapshot for the C9 counterexample. -/
def dbC9 : DB := ⟨[p1C9, p2C9], [], [sC9]⟩

/-- C9 counterexample: project 1 holds no issues, yet the allocator continues
the numbering of project 2 because the identifier scan has no project filter;
the claim as stated, scanning only project 1, yields AB-0001. -/
theorem get_next_story_code_claim_counterexample :
    get_next_story_code dbC9 1 = .ok "AB-0008" ∧
    claimNextStoryCode dbC9 1 = some "AB-0001" :=
  ⟨rfl, rfl⟩
